import Mathlib

/-!
Verification of the Vision client (a React single-page application).

The development shallowly embeds the logic-bearing parts of the
TypeScript sources:

* the dashboard filter/sort pipeline, in two variants
  (`src/unnamed/part_002`, components `dashboard` at lines 198-638 and
  at lines 642-1556);
* the relative-date formatter `formatDate` (same file, both variants);
* the OTP-verification modal submit/resend handlers
  (`src/unnamed/part_001`, `OTPModal`);
* the credential-submission handler (`src/unnamed/part_000`, `AuthForm`);
* the API request builders (`src/client/src/services/api.ts`);
* the route guard (`src/unnamed/part_000`, `PrivateRoute`).

Modelling conventions:

* JavaScript timestamps (`Date.getTime()`) are integers, milliseconds
  since the epoch; nullable ISO date strings become `Option Int`.
  Calendar arithmetic is modelled in a fixed-offset timezone, where
  `d.setDate(d.getDate() - n)` moves the clock back exactly
  `n * 86400000` ms; the month-based `setMonth(getMonth() - 1)` value
  used by the Trending quick filter is kept as an explicit parameter
  `monthAgo`.
* Nullable / optional JS strings become `Option String`; JS truthiness
  of a string (`null`, `undefined` and `""` are falsy) is `truthyStr`.
* `String.prototype.includes` becomes character-list infix containment,
  and `toLowerCase` becomes `String.toLower`.
* An HTTP call is split into the request value it sends and an oracle
  `Except ApiError _` for the response the network would return; the
  handlers become pure functions of that oracle.
* Fields of the `Repository` interface that the filter/sort logic never
  consults (the `languages` byte map, the `complexity` block, the
  floating-point score fields, `cachedAt`) are omitted from the record.
-/

namespace Vision

/-! ## JavaScript primitives -/

/-- Model of JavaScript `hay.includes(pat)`: `pat` occurs contiguously in
`hay`. -/
def includesStr (hay pat : String) : Bool :=
  decide (pat.data <:+: hay.data)

/-- Truthiness of a nullable JavaScript string: `null`/`undefined` and the
empty string are falsy. -/
def truthyStr : Option String → Bool
  | none => false
  | some s => !(s == "")

/-- Milliseconds per day, the `1000 * 60 * 60 * 24` of the sources. -/
def msPerDay : Int := 1000 * 60 * 60 * 24

/-! ## Repository data model

From the `RepositoryHealth` and `Repository` interfaces of
`src/unnamed/part_002` (both variants declare identical interfaces). -/

/-- Health and activity metrics of a repository
(`interface RepositoryHealth`). -/
structure RepositoryHealth where
  stars : Int
  forks : Int
  openIssues : Int
  closedIssues : Int
  watchers : Int
  contributorsCount : Int
  commitsLastMonth : Int
  commitsLastYear : Int
  /-- `lastCommitDate: string | null`, as an epoch-ms timestamp. -/
  lastCommitDate : Option Int
  /-- `creationDate: string | null`, as an epoch-ms timestamp. -/
  creationDate : Option Int
deriving DecidableEq

/-- A repository (`interface Repository`), restricted to the fields the
filter/sort logic reads. -/
structure Repository where
  githubId : String
  name : String
  fullName : String
  htmlUrl : String
  /-- `description?: string | null` -/
  description : Option String
  /-- `primaryLanguage?: string | null` -/
  primaryLanguage : Option String
  topics : List String
  health : RepositoryHealth
  goodFirstIssues : Int
  helpWantedIssues : Int
deriving DecidableEq

/-- The `recentActivity` field of `interface Filters`
(`'any' | 'week' | 'month'`). -/
inductive RecentActivity where
  | any
  | week
  | month
deriving DecidableEq

/-- The `sortBy` field of `interface Filters` (`'stars' | 'updated'`). -/
inductive SortBy where
  | stars
  | updated
deriving DecidableEq

/-- The advanced-filter state (`interface Filters`).  `language` keeps its
JS representation (a string, `''` meaning all languages); `minStars`
models the numeric-input string: `none` is the empty string and `some n`
a numeric string with `parseInt` value `n` (so the falsy-string guard of
the source becomes a `match` on the option). -/
structure Filters where
  language : String
  minStars : Option Int
  recentActivity : RecentActivity
  sortBy : SortBy
deriving DecidableEq

/-! ## Relative-date formatting

From `formatDate` in `src/unnamed/part_002` (lines 80-91 and 742-753;
the two variants are textually identical). -/

/-- Model of `formatDate(dateString)`: `now` is the clock reading
(`new Date().getTime()`), `d` the parsed input date.  `Math.floor` of the
day quotient is floor division `Int.fdiv`. -/
def formatDate (now : Int) (d : Option Int) : String :=
  match d with
  | none => "N/A"
  | some t =>
    let diffTime := now - t
    let diffDays := Int.fdiv diffTime msPerDay
    if diffDays = 0 then "Today"
    else if diffDays = 1 then "Yesterday"
    else if diffDays < 7 then toString diffDays ++ " days ago"
    else if diffDays < 30 then toString (Int.fdiv diffDays 7) ++ " weeks ago"
    else toString (Int.fdiv diffDays 30) ++ " months ago"

/-! ## Dashboard filter/sort pipeline

Both dashboard components of `src/unnamed/part_002` recompute the visible
list from `repositories`, `searchTerm`, `filters` and `activeQuickFilter`
(the first inside a `useEffect` at lines 251-309, the second inside a
`useMemo` at lines 1135-1196).  The search/advanced-filter stage is
textually identical in both; they differ only inside the quick-filter
`switch`. -/

/-- One search-term match (`results.filter(p => ...)` body, lines 256-261
and 1141-1146).  `q` is the already-lowercased search term.  The
description disjunct keeps the JS truthiness guard
`p.description && p.description.toLowerCase().includes(q)`. -/
def matchesSearch (q : String) (p : Repository) : Bool :=
  includesStr p.name.toLower q ||
  (truthyStr p.description && includesStr (p.description.getD "").toLower q) ||
  includesStr p.fullName.toLower q ||
  p.topics.any fun t => includesStr t.toLower q

/-- Activity cutoff: `cutoffDate.setDate(new Date().getDate() - days)`,
that is, `now` moved back `days` days. -/
def cutoff (now : Int) (days : Int) : Int := now - days * msPerDay

/-- The search + advanced-filter stage (lines 252-275 and 1136-1161),
shared verbatim by both variants: search term, then `language`, then
`minStars`, then `recentActivity`, each skipped when its state is falsy
(`''`) resp. `'any'`. -/
def filterStage (now : Int) (searchTerm : String) (f : Filters)
    (repositories : List Repository) : List Repository :=
  let lowercasedSearch := searchTerm.toLower
  let r1 :=
    if lowercasedSearch ≠ "" then
      repositories.filter (matchesSearch lowercasedSearch)
    else repositories
  let r2 :=
    if f.language ≠ "" then
      r1.filter fun p => p.primaryLanguage == some f.language
    else r1
  let r3 :=
    match f.minStars with
    | some m => r2.filter fun p => decide (m ≤ p.health.stars)
    | none => r2
  match f.recentActivity with
  | .any => r3
  | .week => r3.filter fun p =>
      p.health.lastCommitDate.any fun t => decide (cutoff now 7 < t)
  | .month => r3.filter fun p =>
      p.health.lastCommitDate.any fun t => decide (cutoff now 30 < t)

/-- Sort key used by the `'updated'` ordering: a missing
`lastCommitDate` is treated as time `0`
(`a.health.lastCommitDate ? new Date(...).getTime() : 0`). -/
def dateKey (r : Repository) : Int :=
  r.health.lastCommitDate.getD 0

/-- The comparator of the default-sort branch, as a stable-sort order:
JS `Array.prototype.sort` with comparator `c` is a stable sort placing
`a` before `b` when `c a b ≤ 0`. -/
def sortLE (s : SortBy) : Repository → Repository → Bool :=
  match s with
  | .stars => fun a b => decide (b.health.stars ≤ a.health.stars)
  | .updated => fun a b => decide (dateKey b ≤ dateKey a)

/-- Quick-filter labels of the dashboard buttons (emoji prefixes of the
source literals are elided; the labels act as opaque tags and the empty
string means no active quick filter). -/
def trendingLabel : String := "Trending"

/-- Label of the Good First Issues quick filter. -/
def goodFirstLabel : String := "Good First Issues"

/-- Label of the Active Today quick filter. -/
def activeTodayLabel : String := "Active Today"

/-- Label of the Hidden Gems quick filter. -/
def hiddenGemsLabel : String := "Hidden Gems"

/-- First dashboard variant (lines 251-309): quick filters — Trending
restricts to commits after `monthAgo` and sorts by stars, Good First
Issues and Hidden Gems only filter, Active Today keeps repos whose
`formatDate` is `'Today'`; with no (or an unknown non-empty) quick
filter label the `switch` default leaves the list as filtered, and with
the empty label the `sortBy` ordering is applied. -/
def pipelineV1 (now monthAgo : Int) (searchTerm : String) (f : Filters)
    (activeQuickFilter : String) (repositories : List Repository) :
    List Repository :=
  let results := filterStage now searchTerm f repositories
  if activeQuickFilter ≠ "" then
    if activeQuickFilter = trendingLabel then
      ((results.filter fun p =>
          p.health.lastCommitDate.any fun t => decide (monthAgo < t)).mergeSort
        fun a b => decide (b.health.stars ≤ a.health.stars))
    else if activeQuickFilter = goodFirstLabel then
      results.filter fun p => decide (0 < p.goodFirstIssues)
    else if activeQuickFilter = activeTodayLabel then
      results.filter fun p =>
        p.health.lastCommitDate.any fun t => formatDate now (some t) == "Today"
    else if activeQuickFilter = hiddenGemsLabel then
      results.filter fun p =>
        decide (1000 < p.health.stars) && decide (p.health.stars < 20000)
    else results
  else
    match f.sortBy with
    | .stars => results.mergeSort fun a b => decide (b.health.stars ≤ a.health.stars)
    | .updated => results.mergeSort fun a b => decide (dateKey b ≤ dateKey a)

/-- Second dashboard variant (lines 1135-1196): same filter stage, but
Trending sorts by `commitsLastMonth`, Good First Issues sorts by
`goodFirstIssues`, and Hidden Gems sorts by stars. -/
def pipelineV2 (now monthAgo : Int) (searchTerm : String) (f : Filters)
    (activeQuickFilter : String) (repositories : List Repository) :
    List Repository :=
  let results := filterStage now searchTerm f repositories
  if activeQuickFilter ≠ "" then
    if activeQuickFilter = trendingLabel then
      ((results.filter fun p =>
          p.health.lastCommitDate.any fun t => decide (monthAgo < t)).mergeSort
        fun a b => decide (b.health.commitsLastMonth ≤ a.health.commitsLastMonth))
    else if activeQuickFilter = goodFirstLabel then
      ((results.filter fun p => decide (0 < p.goodFirstIssues)).mergeSort
        fun a b => decide (b.goodFirstIssues ≤ a.goodFirstIssues))
    else if activeQuickFilter = activeTodayLabel then
      results.filter fun p =>
        p.health.lastCommitDate.any fun t => formatDate now (some t) == "Today"
    else if activeQuickFilter = hiddenGemsLabel then
      ((results.filter fun p =>
          decide (1000 < p.health.stars) && decide (p.health.stars < 20000)).mergeSort
        fun a b => decide (b.health.stars ≤ a.health.stars))
    else results
  else
    match f.sortBy with
    | .stars => results.mergeSort fun a b => decide (b.health.stars ≤ a.health.stars)
    | .updated => results.mergeSort fun a b => decide (dateKey b ≤ dateKey a)

/-! ## API layer

From `src/client/src/services/api.ts`.  A request is modelled by the
endpoint it posts to together with its JSON body. -/

/-- A POST to the auth API: `/signup` carries `{ name, email }`,
`/login` carries `{ email }`. -/
inductive ApiPost where
  | signupPost (name email : String)
  | loginPost (email : String)
deriving DecidableEq

/-- Response body of `/signup` and `/login`
(`interface AuthResponse`). -/
structure AuthResponse where
  message : String
  status : Int
  account_id : String
deriving DecidableEq

/-- Response body of `/verify-signup` and `/verify-login`
(`interface VerifyResponse`). -/
structure VerifyResponse where
  access_token : String
  token_type : String
deriving DecidableEq

/-- An Axios error, restricted to the fields the catch blocks inspect.
`stringRepr` is the string interpolation `${error}` used by one fallback
message. -/
structure ApiError where
  /-- `error.response?.data?.detail` -/
  detail : Option String
  /-- `error.response?.status` -/
  status : Option Int
  /-- `error.response?.data?.message` -/
  dataMessage : Option String
  /-- whether `error.code === ERR_NETWORK` or the message contains
  `Network Error` -/
  networkError : Bool
  /-- `error.message` -/
  message : String
  /-- `String(error)` -/
  stringRepr : String
deriving DecidableEq

/-- The second argument of `resendOTP` (`'signup' | 'login'`). -/
inductive ResendForm where
  | signup
  | login
deriving DecidableEq

/-- `resendOTP(email, formType)` (api.ts lines 61-71): the signup branch
posts the placeholder name `'Resend'` with the email to `/signup`; the
login branch posts the email alone to `/login`. -/
def resendOTP (email : String) (formType : ResendForm) : ApiPost :=
  match formType with
  | .signup => .signupPost "Resend" email
  | .login => .loginPost email

/-! ## OTP modal

From `OTPModal` in `src/unnamed/part_001`. -/

/-- The `formtype` prop (`'signup' | 'signin' | null`); an `Option` of
this models `null`/`undefined`. -/
inductive FormType where
  | signin
  | signup
deriving DecidableEq

/-- The two OTP-verification endpoints. -/
inductive VerifyEndpoint where
  | verifySignup
  | verifyLogin
deriving DecidableEq

/-- The browser `localStorage` entries the app touches. -/
structure Storage where
  /-- `localStorage` entry `access_token` (`none` = absent). -/
  accessToken : Option String
  /-- `localStorage` entry `token_type`. -/
  tokenType : Option String
deriving DecidableEq

/-- Outcome of one run of `OTPModal.handleSubmit`: the verification
request issued (if any), the resulting storage, and the error message
written during the run (the empty string when the run only cleared it).
The success banner, modal-close timer and `onSuccess` callback are UI
effects outside the model. -/
structure OtpSubmitResult where
  request : Option VerifyEndpoint
  storage : Storage
  errorMessage : String
deriving DecidableEq

/-- The error-message selection of `handleSubmit`'s catch block
(part_001 lines 84-102): JS `||` keeps the first truthy string. -/
def verifyErrorMessage (e : ApiError) : String :=
  if truthyStr e.detail then e.detail.getD ""
  else if e.status = some 401 then "Invalid OTP. Please try again."
  else if e.status = some 404 then "User not found. Please sign up first."
  else if e.status = some 400 then "Email already verified. Please log in."
  else if e.status = some 403 then "Email not verified. Please complete signup first."
  else if e.networkError then "Network error. Please check your connection."
  else if truthyStr e.dataMessage then e.dataMessage.getD ""
  else if e.message ≠ "" then e.message
  else "Failed to verify OTP. Please try again."

/-- Model of `OTPModal.handleSubmit` (part_001 lines 39-106).  The guard
`!Email || !password || password.length !== 6` returns early with the
fixed error message; otherwise one verification request goes out
(`verifySignup` when `formtype === signup`, `verifyLogin` otherwise)
and `outcome` is the network's answer: on success both tokens are
written to storage, on failure storage is untouched and the catch block
picks a message. -/
def otpHandleSubmit (email : Option String) (password : String)
    (formtype : Option FormType) (outcome : Except ApiError VerifyResponse)
    (st : Storage) : OtpSubmitResult :=
  if !truthyStr email || password == "" || decide (password.length ≠ 6) then
    { request := none, storage := st,
      errorMessage := "Please enter a valid 6-digit OTP" }
  else
    let endpoint : VerifyEndpoint :=
      if formtype = some .signup then .verifySignup else .verifyLogin
    match outcome with
    | .ok v =>
      { request := some endpoint,
        storage := { accessToken := some v.access_token,
                     tokenType := some v.token_type },
        errorMessage := "" }
    | .error e =>
      { request := some endpoint, storage := st,
        errorMessage := verifyErrorMessage e }

/-- Model of `OTPModal.handleResendOtp` (part_001 lines 108-126): falsy
email returns without a request; otherwise the resend goes through
`resendOTP` with `'signup'` exactly when `formtype === signup`. -/
def handleResendOtp (email : Option String) (formtype : Option FormType) :
    Option ApiPost :=
  if !truthyStr email then none
  else
    some (resendOTP (email.getD "")
      (if formtype = some .signup then .signup else .login))

/-! ## Credential-submission form

From `AuthForm.onSubmit` in `src/unnamed/part_000` (lines 69-112). -/

/-- The `accountData` state set on success; its presence renders the OTP
modal. -/
structure AccountData where
  accountId : String
  email : String
  fullName : Option String
deriving DecidableEq

/-- Outcome of one run of `AuthForm.onSubmit`: the credential request
issued, the `accountData` produced by this run (`some` opens the OTP
modal), and the error message written during the run. -/
structure AuthSubmitResult where
  request : ApiPost
  accountData : Option AccountData
  errorMessage : String
deriving DecidableEq

/-- The error-message selection of `onSubmit`'s catch block (part_000
lines 94-108). -/
def authErrorMessage (type : FormType) (e : ApiError) : String :=
  if truthyStr e.detail then e.detail.getD ""
  else if e.status = some 404 ∧ type = .signin then
    "Account not found. Please sign up first."
  else if e.status = some 403 then
    "Email not verified. Please complete signup first."
  else if e.status = some 400 then
    "User already exists. Please try logging in."
  else
    "Failed to " ++ (if type = .signup then "create account" else "sign in")
      ++ ". Please try again." ++ e.stringRepr

/-- Model of `AuthForm.onSubmit`: `type === signup && values.FullName`
(truthy) selects `createUser({ name, email })`, anything else
`login({ email })`; on success `accountData` is set from the returned
`account_id` (opening the OTP modal), on failure it is not set and the
catch block picks a message. -/
def authOnSubmit (type : FormType) (fullName : Option String)
    (email : String) (outcome : Except ApiError AuthResponse) :
    AuthSubmitResult :=
  let request : ApiPost :=
    if type = .signup ∧ truthyStr fullName then
      .signupPost (fullName.getD "") email
    else
      .loginPost email
  match outcome with
  | .ok u =>
    { request := request,
      accountData := some ⟨u.account_id, email, fullName⟩,
      errorMessage := "" }
  | .error e =>
    { request := request, accountData := none,
      errorMessage := authErrorMessage type e }

/-! ## Route guard

From `PrivateRoute` in `src/unnamed/part_000` (lines 4-15), mounted on
`/dashboard` in `src/client/src/App.tsx`. -/

/-- What the guard renders: the protected `<Outlet/>` or nothing. -/
inductive RouteOutput where
  | outlet
  | nothing
deriving DecidableEq

/-- A `navigate(target, { replace })` call. -/
structure NavigateCall where
  target : String
  replace : Bool
deriving DecidableEq

/-- Render of `PrivateRoute`: `token ? <Outlet/> : null` where `token`
is `localStorage.getItem(access_token)`. -/
def privateRouteRender (token : Option String) : RouteOutput :=
  if truthyStr token then .outlet else .nothing

/-- Effect of `PrivateRoute`: `if (!token) navigate(signin, replace)`. -/
def privateRouteEffect (token : Option String) : Option NavigateCall :=
  if !truthyStr token then some ⟨"/signin", true⟩ else none

/-! ## Concrete fixtures

Inputs used by counterexamples and witnesses. -/

/-- The `initialFilters` object of both dashboard variants. -/
def initialFilters : Filters :=
  { language := "", minStars := none, recentActivity := .any, sortBy := .stars }

/-- A zeroed health record to build fixtures from. -/
def sampleHealth : RepositoryHealth :=
  { stars := 0, forks := 0, openIssues := 0, closedIssues := 0, watchers := 0,
    contributorsCount := 0, commitsLastMonth := 0, commitsLastYear := 0,
    lastCommitDate := none, creationDate := none }

/-- Fixture: many stars, few recent commits, last commit at time 1. -/
def repoA : Repository :=
  { githubId := "1", name := "A", fullName := "org/A", htmlUrl := "urlA",
    description := none, primaryLanguage := none, topics := [],
    health := { sampleHealth with
      stars := 100, commitsLastMonth := 1, lastCommitDate := some 1 },
    goodFirstIssues := 0, helpWantedIssues := 0 }

/-- Fixture: few stars, many recent commits, last commit at time 1. -/
def repoB : Repository :=
  { githubId := "2", name := "B", fullName := "org/B", htmlUrl := "urlB",
    description := none, primaryLanguage := none, topics := [],
    health := { sampleHealth with
      stars := 50, commitsLastMonth := 5, lastCommitDate := some 1 },
    goodFirstIssues := 0, helpWantedIssues := 0 }

/-! ## Helper lemmas -/

/-- A string has empty character data exactly when it is the empty
string. -/
theorem data_eq_nil_iff (s : String) : s.data = [] ↔ s = "" :=
  ⟨fun h => String.ext (h.trans rfl), fun h => by subst h; rfl⟩

/-- Lowercasing preserves emptiness. -/
theorem toLower_eq_empty_iff (s : String) : s.toLower = "" ↔ s = "" := by
  rw [String.toLower, String.map_eq, ← data_eq_nil_iff, ← data_eq_nil_iff s]
  exact List.map_eq_nil_iff

/-- A non-empty pattern does not occur in the empty string. -/
theorem includesStr_empty {q : String} (h : q ≠ "") :
    includesStr "" q = false := by
  simp only [includesStr, decide_eq_false_iff_not]
  intro hin
  exact h ((data_eq_nil_iff q).mp (List.infix_nil.mp hin))

/-- Membership through a conditionally applied `filter`. -/
theorem mem_ite_filter {α : Type} {c : Prop} [Decidable c] {p : α → Bool}
    {l : List α} {a : α} :
    a ∈ (if c then l.filter p else l) ↔ a ∈ l ∧ (c → p a = true) := by
  by_cases h : c <;> simp [h, List.mem_filter]

/-- Variant of `mem_ite_filter` with the branches flipped, matching the
`if`-normal form simp produces. -/
theorem mem_ite_filter' {α : Type} {c : Prop} [Decidable c] {p : α → Bool}
    {l : List α} {a : α} :
    a ∈ (if c then l else l.filter p) ↔ a ∈ l ∧ (¬c → p a = true) := by
  by_cases h : c <;> simp [h, List.mem_filter]

/-- Membership characterization of `Option.any` over a strictness
test. -/
theorem option_any_lt_iff {o : Option Int} {c : Int} :
    (o.any fun t => decide (c < t)) = true ↔ ∃ t, o = some t ∧ c < t := by
  cases o <;> simp [Option.any]

/-- For a non-empty lowercased search term, `matchesSearch` is the
four-way disjunction of the claim (the JS truthiness guard on the
description collapses because nothing non-empty occurs in an empty
description). -/
theorem matchesSearch_iff {q : String} (hq : q ≠ "") (r : Repository) :
    matchesSearch q r = true ↔
      (includesStr r.name.toLower q = true ∨
       (∃ d, r.description = some d ∧ includesStr d.toLower q = true) ∨
       includesStr r.fullName.toLower q = true ∨
       ∃ t ∈ r.topics, includesStr t.toLower q = true) := by
  unfold matchesSearch
  cases hd : r.description with
  | none => simp [truthyStr, List.any_eq_true]; tauto
  | some d =>
    by_cases hde : d = ""
    · subst hde
      have h0 : "".toLower = "" := (toLower_eq_empty_iff "").mpr rfl
      simp [truthyStr, h0, includesStr_empty hq, List.any_eq_true]
      tauto
    · simp [truthyStr, hde, List.any_eq_true]; tauto

/-- Membership characterization of the search + advanced-filter
stage. -/
theorem mem_filterStage {now : Int} {searchTerm : String} {f : Filters}
    {rs : List Repository} {r : Repository} :
    r ∈ filterStage now searchTerm f rs ↔
      r ∈ rs ∧
      (searchTerm.toLower ≠ "" → matchesSearch searchTerm.toLower r = true) ∧
      (f.language ≠ "" → (r.primaryLanguage == some f.language) = true) ∧
      (∀ m, f.minStars = some m → m ≤ r.health.stars) ∧
      (f.recentActivity = .week →
        (r.health.lastCommitDate.any fun t => decide (cutoff now 7 < t)) = true) ∧
      (f.recentActivity = .month →
        (r.health.lastCommitDate.any fun t => decide (cutoff now 30 < t)) = true) := by
  obtain ⟨lang, ms, ra, sb⟩ := f
  unfold filterStage
  cases ms <;> cases ra <;>
    simp [mem_ite_filter, mem_ite_filter', List.mem_filter, and_assoc] <;>
    tauto

/-- Everything the filter stage keeps comes from the input list. -/
theorem filterStage_subset {now : Int} {searchTerm : String} {f : Filters}
    {rs : List Repository} {r : Repository}
    (h : r ∈ filterStage now searchTerm f rs) : r ∈ rs :=
  (mem_filterStage.mp h).1

/-- With no active quick filter, the first variant is the filter stage
followed by the `sortBy` stable sort. -/
theorem pipelineV1_no_quick (now monthAgo : Int) (searchTerm : String)
    (f : Filters) (rs : List Repository) :
    pipelineV1 now monthAgo searchTerm f "" rs =
      (filterStage now searchTerm f rs).mergeSort (sortLE f.sortBy) := by
  obtain ⟨lang, ms, ra, sb⟩ := f
  cases sb <;> simp [pipelineV1, sortLE]

/-- With no active quick filter, the second variant is the filter stage
followed by the `sortBy` stable sort. -/
theorem pipelineV2_no_quick (now monthAgo : Int) (searchTerm : String)
    (f : Filters) (rs : List Repository) :
    pipelineV2 now monthAgo searchTerm f "" rs =
      (filterStage now searchTerm f rs).mergeSort (sortLE f.sortBy) := by
  obtain ⟨lang, ms, ra, sb⟩ := f
  cases sb <;> simp [pipelineV2, sortLE]

/-- Evaluation of the first variant's Trending branch. -/
theorem pipelineV1_trending (now monthAgo : Int) (searchTerm : String)
    (f : Filters) (rs : List Repository) :
    pipelineV1 now monthAgo searchTerm f trendingLabel rs =
      ((filterStage now searchTerm f rs).filter fun p =>
        p.health.lastCommitDate.any fun t => decide (monthAgo < t)).mergeSort
        (fun a b => decide (b.health.stars ≤ a.health.stars)) := by
  simp only [pipelineV1]
  rw [if_pos (show trendingLabel ≠ "" by decide)]
  simp

/-- Evaluation of the second variant's Trending branch. -/
theorem pipelineV2_trending (now monthAgo : Int) (searchTerm : String)
    (f : Filters) (rs : List Repository) :
    pipelineV2 now monthAgo searchTerm f trendingLabel rs =
      ((filterStage now searchTerm f rs).filter fun p =>
        p.health.lastCommitDate.any fun t => decide (monthAgo < t)).mergeSort
        (fun a b =>
          decide (b.health.commitsLastMonth ≤ a.health.commitsLastMonth)) := by
  simp only [pipelineV2]
  rw [if_pos (show trendingLabel ≠ "" by decide)]
  simp

/-- Closed-form evaluation of a stable sort of a two-element list. -/
theorem mergeSort_pair {α : Type} (le : α → α → Bool) (a b : α) :
    [a, b].mergeSort le = if le a b then [a, b] else [b, a] := by
  rw [List.mergeSort]
  simp [List.splitInTwo, List.splitAt_eq, List.merge]

/-- The default-sort comparators are transitive. -/
theorem sortLE_trans (s : SortBy) :
    ∀ a b c, sortLE s a b → sortLE s b c → sortLE s a c := by
  cases s <;> intro a b c hab hbc <;>
    simp only [sortLE, decide_eq_true_eq] at * <;> omega

/-- The default-sort comparators are total. -/
theorem sortLE_total (s : SortBy) : ∀ a b, sortLE s a b || sortLE s b a := by
  cases s <;> intro a b <;>
    simp only [sortLE, Bool.or_eq_true, decide_eq_true_eq] <;> omega

/-- Appending anything to a non-empty string is non-empty. -/
theorem append_left_ne_empty {s : String} (t : String) (hs : s ≠ "") :
    s ++ t ≠ "" := by
  intro h
  apply hs
  have hd := congrArg String.data h
  rw [String.data_append] at hd
  exact (data_eq_nil_iff s).mp (List.append_eq_nil.mp hd).1

/-- The OTP-verification catch block always produces a non-empty
message. -/
theorem verifyErrorMessage_ne_empty (e : ApiError) :
    verifyErrorMessage e ≠ "" := by
  unfold verifyErrorMessage
  split_ifs with h1 h2 h3 h4 h5 h6 h7 h8
  · cases hd : e.detail with
    | none => rw [hd] at h1; simp [truthyStr] at h1
    | some d =>
      rw [hd] at h1
      simp only [truthyStr, Bool.not_eq_true', beq_eq_false_iff_ne, ne_eq] at h1
      simpa [hd] using h1
  · decide
  · decide
  · decide
  · decide
  · decide
  · cases hd : e.dataMessage with
    | none => rw [hd] at h7; simp [truthyStr] at h7
    | some d =>
      rw [hd] at h7
      simp only [truthyStr, Bool.not_eq_true', beq_eq_false_iff_ne, ne_eq] at h7
      simpa [hd] using h7
  · exact h8
  · decide

/-- The credential-submission catch block always produces a non-empty
message. -/
theorem authErrorMessage_ne_empty (type : FormType) (e : ApiError) :
    authErrorMessage type e ≠ "" := by
  unfold authErrorMessage
  split_ifs with h1 h2 h3 h4
  · cases hd : e.detail with
    | none => rw [hd] at h1; simp [truthyStr] at h1
    | some d =>
      rw [hd] at h1
      simp only [truthyStr, Bool.not_eq_true', beq_eq_false_iff_ne, ne_eq] at h1
      simpa [hd] using h1
  · decide
  · decide
  · decide
  all_goals
    exact append_left_ne_empty _
      (append_left_ne_empty _ (append_left_ne_empty _ (by decide)))

/-! ## Claim theorems -/

/-- C5: `formatDate` maps a null input to `N/A`; otherwise, letting `d`
be the floor of the elapsed whole days between `now` and the input date,
`d = 0` yields `Today`, `d = 1` yields `Yesterday`, `2 ≤ d < 7` yields
`d days ago`, `7 ≤ d < 30` yields `⌊d/7⌋ weeks ago`, and `d ≥ 30` yields
`⌊d/30⌋ months ago`. -/
theorem c5_formatDate_buckets (now t : Int) :
    formatDate now none = "N/A" ∧
    (Int.fdiv (now - t) msPerDay = 0 → formatDate now (some t) = "Today") ∧
    (Int.fdiv (now - t) msPerDay = 1 →
      formatDate now (some t) = "Yesterday") ∧
    (2 ≤ Int.fdiv (now - t) msPerDay → Int.fdiv (now - t) msPerDay < 7 →
      formatDate now (some t) =
        toString (Int.fdiv (now - t) msPerDay) ++ " days ago") ∧
    (7 ≤ Int.fdiv (now - t) msPerDay → Int.fdiv (now - t) msPerDay < 30 →
      formatDate now (some t) =
        toString (Int.fdiv (Int.fdiv (now - t) msPerDay) 7) ++ " weeks ago") ∧
    (30 ≤ Int.fdiv (now - t) msPerDay →
      formatDate now (some t) =
        toString (Int.fdiv (Int.fdiv (now - t) msPerDay) 30) ++
          " months ago") := by
  refine ⟨rfl, ?_, ?_, ?_, ?_, ?_⟩
  · intro h
    simp only [formatDate]
    rw [if_pos h]
  · intro h
    simp only [formatDate]
    generalize Int.fdiv (now - t) msPerDay = d at h ⊢
    rw [if_neg (by omega), if_pos h]
  · intro h2 h7
    simp only [formatDate]
    generalize Int.fdiv (now - t) msPerDay = d at h2 h7 ⊢
    rw [if_neg (by omega), if_neg (by omega), if_pos h7]
  · intro h7 h30
    simp only [formatDate]
    generalize Int.fdiv (now - t) msPerDay = d at h7 h30 ⊢
    rw [if_neg (by omega), if_neg (by omega), if_neg (by omega), if_pos h30]
  · intro h30
    simp only [formatDate]
    generalize Int.fdiv (now - t) msPerDay = d at h30 ⊢
    rw [if_neg (by omega), if_neg (by omega), if_neg (by omega),
      if_neg (by omega)]

/-- Witness for C5 at a date three days in the past. -/
theorem c5_formatDate_buckets_witness :
    formatDate (3 * msPerDay) (some 0) = "3 days ago" :=
  ((c5_formatDate_buckets (3 * msPerDay) 0).2.2.2.1 (by decide)
    (by decide)).trans (by decide)

/-- C9: the route guard renders the protected outlet exactly when a
non-empty `access_token` entry is stored, and renders nothing exactly
when it also issues a replacing navigation to `/signin`. -/
theorem c9_private_route (token : Option String) :
    (privateRouteRender token = .outlet ↔ ∃ s, token = some s ∧ s ≠ "") ∧
    (privateRouteRender token = .nothing ↔
      privateRouteEffect token = some ⟨"/signin", true⟩) := by
  cases token with
  | none => simp [privateRouteRender, privateRouteEffect, truthyStr]
  | some s =>
    by_cases h : s = "" <;>
      simp [privateRouteRender, privateRouteEffect, truthyStr, h]

/-- Witness for C9: a stored non-empty token renders the outlet. -/
theorem c9_private_route_witness :
    privateRouteRender (some "tok") = .outlet :=
  (c9_private_route (some "tok")).1.mpr ⟨"tok", rfl, by decide⟩

/-- C10: a resend from the signup flow posts the constant name `Resend`
with the preserved email to `/signup`; a resend from the login flow
posts the email alone to `/login`; `handleResendOtp` routes a non-empty
email accordingly. -/
theorem c10_resend_placeholder (email : String) (ft : Option FormType)
    (he : email ≠ "") (hft : ft ≠ some .signup) :
    resendOTP email .signup = .signupPost "Resend" email ∧
    resendOTP email .login = .loginPost email ∧
    handleResendOtp (some email) (some .signup) =
      some (.signupPost "Resend" email) ∧
    handleResendOtp (some email) ft = some (.loginPost email) := by
  refine ⟨rfl, rfl, ?_, ?_⟩
  · simp [handleResendOtp, truthyStr, he, resendOTP]
  · simp [handleResendOtp, truthyStr, he, hft, resendOTP]

/-- Witness for C10 with a concrete email, resending in both flows. -/
theorem c10_resend_placeholder_witness :
    handleResendOtp (some "user@example.com") (some .signup) =
      some (.signupPost "Resend" "user@example.com") ∧
    handleResendOtp (some "user@example.com") none =
      some (.loginPost "user@example.com") :=
  ⟨(c10_resend_placeholder "user@example.com" none (by decide)
      (by decide)).2.2.1,
   (c10_resend_placeholder "user@example.com" none (by decide)
      (by decide)).2.2.2⟩

/-- C4: credential submission is sequential — on success the OTP modal
state is populated with the returned `account_id` (and no error is set),
on failure it is not populated and a non-empty error message is set; the
request is `createUser(name, email)` exactly for a signup with truthy
full name and `login(email)` otherwise. -/
theorem c4_sequential_auth (type : FormType) (fullName : Option String)
    (email : String) (u : AuthResponse) (e : ApiError) :
    (authOnSubmit type fullName email (.ok u)).request =
      (if type = .signup ∧ truthyStr fullName then
        ApiPost.signupPost (fullName.getD "") email
      else ApiPost.loginPost email) ∧
    (authOnSubmit type fullName email (.ok u)).accountData =
      some ⟨u.account_id, email, fullName⟩ ∧
    (authOnSubmit type fullName email (.ok u)).errorMessage = "" ∧
    (authOnSubmit type fullName email (.error e)).request =
      (if type = .signup ∧ truthyStr fullName then
        ApiPost.signupPost (fullName.getD "") email
      else ApiPost.loginPost email) ∧
    (authOnSubmit type fullName email (.error e)).accountData = none ∧
    (authOnSubmit type fullName email (.error e)).errorMessage =
      authErrorMessage type e ∧
    authErrorMessage type e ≠ "" :=
  ⟨rfl, rfl, rfl, rfl, rfl, rfl, authErrorMessage_ne_empty type e⟩

/-- Witness for C4: a successful signup submission opens the modal with
the returned account id. -/
theorem c4_sequential_auth_witness :
    (authOnSubmit .signup (some "Ada") "a@b.c"
        (.ok ⟨"ok", 200, "acc1"⟩)).accountData =
      some ⟨"acc1", "a@b.c", some "Ada"⟩ :=
  (c4_sequential_auth .signup (some "Ada") "a@b.c" ⟨"ok", 200, "acc1"⟩
    ⟨none, none, none, false, "", ""⟩).2.1

/-- C2: with the input guard satisfied, the tokens are persisted exactly
when verification succeeds — on success both `access_token` and
`token_type` are written, on failure storage is unchanged and a
non-empty error message is set; the endpoint is `verifySignup` for the
signup flow and `verifyLogin` otherwise. -/
theorem c2_token_persistence (email : Option String) (password : String)
    (ft : Option FormType) (st : Storage) (v : VerifyResponse) (e : ApiError)
    (hemail : truthyStr email = true) (hlen : password.length = 6) :
    (otpHandleSubmit email password ft (.ok v) st).request =
      some (if ft = some .signup then .verifySignup else .verifyLogin) ∧
    (otpHandleSubmit email password ft (.ok v) st).storage =
      ⟨some v.access_token, some v.token_type⟩ ∧
    (otpHandleSubmit email password ft (.ok v) st).errorMessage = "" ∧
    (otpHandleSubmit email password ft (.error e) st).request =
      some (if ft = some .signup then .verifySignup else .verifyLogin) ∧
    (otpHandleSubmit email password ft (.error e) st).storage = st ∧
    (otpHandleSubmit email password ft (.error e) st).errorMessage =
      verifyErrorMessage e ∧
    verifyErrorMessage e ≠ "" := by
  have hpw : (password == "") = false := by
    refine beq_eq_false_iff_ne.mpr fun h => ?_
    subst h
    simp at hlen
  refine ?_
  simp [otpHandleSubmit, hemail, hpw, hlen, verifyErrorMessage_ne_empty e]

/-- Witness for C2 with a six-digit passcode, in both the success and
the failure case. -/
theorem c2_token_persistence_witness :
    (otpHandleSubmit (some "a@b.c") "123456" (some .signup)
        (.ok ⟨"tok", "bearer"⟩) ⟨none, none⟩).storage =
      ⟨some "tok", some "bearer"⟩ ∧
    (otpHandleSubmit (some "a@b.c") "123456" (some .signup)
        (.error ⟨none, some 401, none, false, "boom", "Error: boom"⟩)
        ⟨none, none⟩).storage = ⟨none, none⟩ :=
  ⟨(c2_token_persistence (some "a@b.c") "123456" (some .signup) ⟨none, none⟩
      ⟨"tok", "bearer"⟩ ⟨none, some 401, none, false, "boom", "Error: boom"⟩
      (by decide) (by decide)).2.1,
   (c2_token_persistence (some "a@b.c") "123456" (some .signup) ⟨none, none⟩
      ⟨"tok", "bearer"⟩ ⟨none, some 401, none, false, "boom", "Error: boom"⟩
      (by decide) (by decide)).2.2.2.2.1⟩

/-- C8: the OTP submit handler issues a request only when the email is
truthy and the passcode has length exactly six; any input violating the
guard makes no request, leaves storage unchanged and sets the fixed
error message. -/
theorem c8_otp_guard (email : Option String) (password : String)
    (ft : Option FormType) (outcome : Except ApiError VerifyResponse)
    (st : Storage) :
    (¬(truthyStr email = true ∧ password.length = 6) →
      otpHandleSubmit email password ft outcome st =
        ⟨none, st, "Please enter a valid 6-digit OTP"⟩) ∧
    ((otpHandleSubmit email password ft outcome st).request.isSome = true →
      truthyStr email = true ∧ password.length = 6) := by
  by_cases hg : truthyStr email = true ∧ password.length = 6
  · exact ⟨fun h => absurd hg h, fun _ => hg⟩
  · have hcond :
        (!truthyStr email || password == "" ||
          decide (password.length ≠ 6)) = true := by
      rcases not_and_or.mp hg with h | h
      · have hf : truthyStr email = false := by
          revert h; cases truthyStr email <;> simp
        simp [hf]
      · simp only [Bool.or_eq_true, decide_eq_true_eq]
        tauto
    have hres : otpHandleSubmit email password ft outcome st =
        ⟨none, st, "Please enter a valid 6-digit OTP"⟩ := by
      unfold otpHandleSubmit
      rw [if_pos hcond]
    refine ⟨fun _ => hres, fun hreq => ?_⟩
    rw [hres] at hreq
    simp at hreq

/-- Witness for C8 at a five-digit passcode. -/
theorem c8_otp_guard_witness :
    otpHandleSubmit (some "a@b.c") "12345" (some .signup)
        (.ok ⟨"tok", "bearer"⟩) ⟨none, none⟩ =
      ⟨none, ⟨none, none⟩, "Please enter a valid 6-digit OTP"⟩ :=
  (c8_otp_guard (some "a@b.c") "12345" (some .signup)
    (.ok ⟨"tok", "bearer"⟩) ⟨none, none⟩).1 (by decide)

/-- C1: the filter stage keeps exactly the repositories satisfying the
conjunction of the active predicates — search-term occurrence in name,
description, full name or some topic (after lowercasing); primary
language equal to the selected one; at least the parsed star minimum;
last commit strictly after now minus 7 resp. 30 days — and each inactive
predicate excludes nothing. -/
theorem c1_filter_conjunction (now : Int) (searchTerm : String)
    (f : Filters) (rs : List Repository) (r : Repository) :
    r ∈ filterStage now searchTerm f rs ↔
      r ∈ rs ∧
      (searchTerm ≠ "" →
        (includesStr r.name.toLower searchTerm.toLower = true ∨
         (∃ d, r.description = some d ∧
            includesStr d.toLower searchTerm.toLower = true) ∨
         includesStr r.fullName.toLower searchTerm.toLower = true ∨
         ∃ tp ∈ r.topics,
           includesStr tp.toLower searchTerm.toLower = true)) ∧
      (f.language ≠ "" → r.primaryLanguage = some f.language) ∧
      (∀ m, f.minStars = some m → m ≤ r.health.stars) ∧
      (f.recentActivity = .week →
        ∃ t, r.health.lastCommitDate = some t ∧ now - 7 * msPerDay < t) ∧
      (f.recentActivity = .month →
        ∃ t, r.health.lastCommitDate = some t ∧ now - 30 * msPerDay < t) := by
  rw [mem_filterStage]
  refine and_congr Iff.rfl (and_congr ?_ (and_congr ?_
    (and_congr Iff.rfl (and_congr ?_ ?_))))
  · constructor
    · intro h hne
      have hql : searchTerm.toLower ≠ "" :=
        fun hl => hne ((toLower_eq_empty_iff _).mp hl)
      exact (matchesSearch_iff hql r).mp (h hql)
    · intro h hql
      have hne : searchTerm ≠ "" :=
        fun he => hql ((toLower_eq_empty_iff _).mpr rfl ▸ he ▸ rfl)
      exact (matchesSearch_iff hql r).mpr (h hne)
  · exact imp_congr Iff.rfl beq_iff_eq
  · exact imp_congr Iff.rfl option_any_lt_iff
  · exact imp_congr Iff.rfl option_any_lt_iff

/-- Witness for C1: with every predicate inactive, a repository of the
input list is kept. -/
theorem c1_filter_conjunction_witness :
    repoA ∈ filterStage 0 "" initialFilters [repoA, repoB] :=
  (c1_filter_conjunction 0 "" initialFilters [repoA, repoB] repoA).mpr
    (by
      refine ⟨by decide, fun h => absurd rfl h, fun h => absurd rfl h,
        ?_, ?_, ?_⟩
      · intro m h; simp [initialFilters] at h
      · intro h; simp [initialFilters] at h
      · intro h; simp [initialFilters] at h)

/-- C3: an active quick filter makes the result independent of the
advanced `sortBy` setting, and the `sortBy` stable sort is applied
exactly when no quick filter is active. -/
theorem c3_quick_filter_overrides_sort (now monthAgo : Int)
    (searchTerm : String) (f : Filters) (label : String)
    (rs : List Repository) (hlabel : label ≠ "") :
    (∀ s, pipelineV2 now monthAgo searchTerm { f with sortBy := s } label rs =
      pipelineV2 now monthAgo searchTerm f label rs) ∧
    pipelineV2 now monthAgo searchTerm f "" rs =
      (filterStage now searchTerm f rs).mergeSort (sortLE f.sortBy) := by
  refine ⟨fun s => ?_, pipelineV2_no_quick now monthAgo searchTerm f rs⟩
  simp only [pipelineV2]
  rw [if_pos hlabel, if_pos hlabel]
  have hfs : filterStage now searchTerm
      { language := f.language, minStars := f.minStars,
        recentActivity := f.recentActivity, sortBy := s } rs =
      filterStage now searchTerm f rs := rfl
  rw [hfs]

/-- Witness for C3: with the Good First Issues quick filter active, the
two `sortBy` settings agree. -/
theorem c3_quick_filter_overrides_sort_witness :
    pipelineV2 0 0 "" { initialFilters with sortBy := .updated }
        goodFirstLabel [repoA, repoB] =
      pipelineV2 0 0 "" initialFilters goodFirstLabel [repoA, repoB] :=
  (c3_quick_filter_overrides_sort 0 0 "" initialFilters goodFirstLabel
    [repoA, repoB] (by decide)).1 .updated

/-- C6: with no quick filter active, the dashboard output is a
permutation of the filtered list sorted by descending stars when
`sortBy` is `stars` and by descending last-commit time (null as time 0)
when `sortBy` is `updated`; when all stored commit times are positive,
null-dated repositories come last. -/
theorem c6_default_sort (now monthAgo : Int) (searchTerm : String)
    (f : Filters) (rs : List Repository)
    (hpos : ∀ r ∈ rs, ∀ t, r.health.lastCommitDate = some t → 0 < t) :
    (pipelineV2 now monthAgo searchTerm f "" rs).Perm
      (filterStage now searchTerm f rs) ∧
    (f.sortBy = .stars →
      (pipelineV2 now monthAgo searchTerm f "" rs).Pairwise fun a b =>
        b.health.stars ≤ a.health.stars) ∧
    (f.sortBy = .updated →
      (pipelineV2 now monthAgo searchTerm f "" rs).Pairwise fun a b =>
        dateKey b ≤ dateKey a) ∧
    (f.sortBy = .updated →
      (pipelineV2 now monthAgo searchTerm f "" rs).Pairwise fun a b =>
        a.health.lastCommitDate = none → b.health.lastCommitDate = none) := by
  rw [pipelineV2_no_quick]
  have hsorted :
      ((filterStage now searchTerm f rs).mergeSort (sortLE f.sortBy)).Pairwise
        fun a b => sortLE f.sortBy a b = true :=
    List.sorted_mergeSort (sortLE_trans f.sortBy) (sortLE_total f.sortBy) _
  have hupd : f.sortBy = .updated →
      ((filterStage now searchTerm f rs).mergeSort (sortLE f.sortBy)).Pairwise
        fun a b => dateKey b ≤ dateKey a := by
    intro hsb
    refine hsorted.imp fun {a b} h => ?_
    rw [hsb] at h
    simpa [sortLE] using h
  refine ⟨List.mergeSort_perm _ _, ?_, hupd, ?_⟩
  · intro hsb
    refine hsorted.imp fun {a b} h => ?_
    rw [hsb] at h
    simpa [sortLE] using h
  · intro hsb
    refine (hupd hsb).imp_of_mem fun {a b} ha hb hle hnone => ?_
    have hb' : b ∈ rs := filterStage_subset (List.mem_mergeSort.mp hb)
    cases hbd : b.health.lastCommitDate with
    | none => rfl
    | some tb =>
      have htb := hpos b hb' tb hbd
      exfalso
      simp only [dateKey, hnone, hbd, Option.getD_some, Option.getD_none] at hle
      omega

/-- Witness for C6 on two repositories with positive commit times,
sorted by last update. -/
theorem c6_default_sort_witness :
    (pipelineV2 0 0 "" { initialFilters with sortBy := .updated } ""
        [repoB, repoA]).Pairwise (fun a b => dateKey b ≤ dateKey a) :=
  (c6_default_sort 0 0 "" { initialFilters with sortBy := .updated }
    [repoB, repoA]
    (by
      intro r hr t ht
      have hdate : r.health.lastCommitDate = some 1 := by
        rcases List.mem_cons.mp hr with h | h
        · subst h; rfl
        · rcases List.mem_cons.mp h with h2 | h2
          · subst h2; rfl
          · exact absurd h2 (List.not_mem_nil r)
      rw [hdate] at ht
      injection ht with h
      omega)).2.2.1 rfl

/-- C7 counterexample: on the same input state with the Trending quick
filter active, the two dashboard variants return different orders (the
first sorts by stars, the second by commits last month). -/
theorem c7_variants_differ :
    pipelineV1 0 0 "" initialFilters trendingLabel [repoA, repoB] ≠
      pipelineV2 0 0 "" initialFilters trendingLabel [repoA, repoB] := by
  rw [pipelineV1_trending, pipelineV2_trending]
  have hfs : filterStage 0 "" initialFilters [repoA, repoB] =
      [repoA, repoB] := by
    simp [filterStage, initialFilters, (toLower_eq_empty_iff "").mpr rfl]
  rw [hfs]
  have hfilter : ([repoA, repoB].filter fun p =>
      p.health.lastCommitDate.any fun t => decide ((0 : Int) < t)) =
      [repoA, repoB] := by decide
  rw [hfilter, mergeSort_pair, mergeSort_pair]
  decide

/-- C7 amended: the two variants compute the same filtered multiset —
their outputs are permutations of each other on every input state — and
are identical whenever no quick filter is active; with a quick filter
active the orderings may differ. -/
theorem c7_variants_agree_up_to_order (now monthAgo : Int)
    (searchTerm : String) (f : Filters) (label : String)
    (rs : List Repository) :
    (pipelineV1 now monthAgo searchTerm f label rs).Perm
      (pipelineV2 now monthAgo searchTerm f label rs) ∧
    (label = "" → pipelineV1 now monthAgo searchTerm f label rs =
      pipelineV2 now monthAgo searchTerm f label rs) := by
  constructor
  · by_cases h0 : label = ""
    · subst h0
      rw [pipelineV1_no_quick, pipelineV2_no_quick]
    · simp only [pipelineV1, pipelineV2]
      rw [if_pos h0, if_pos h0]
      by_cases h1 : label = trendingLabel
      · rw [if_pos h1, if_pos h1]
        exact (List.mergeSort_perm _ _).trans (List.mergeSort_perm _ _).symm
      · rw [if_neg h1, if_neg h1]
        by_cases h2 : label = goodFirstLabel
        · rw [if_pos h2, if_pos h2]
          exact (List.mergeSort_perm _ _).symm
        · rw [if_neg h2, if_neg h2]
          by_cases h3 : label = activeTodayLabel
          · rw [if_pos h3, if_pos h3]
          · rw [if_neg h3, if_neg h3]
            by_cases h4 : label = hiddenGemsLabel
            · rw [if_pos h4, if_pos h4]
              exact (List.mergeSort_perm _ _).symm
            · rw [if_neg h4, if_neg h4]
  · intro h0
    subst h0
    rw [pipelineV1_no_quick, pipelineV2_no_quick]

/-- Witness for the amended C7 with no active quick filter. -/
theorem c7_variants_agree_up_to_order_witness :
    pipelineV1 0 0 "" initialFilters "" [repoA, repoB] =
      pipelineV2 0 0 "" initialFilters "" [repoA, repoB] :=
  (c7_variants_agree_up_to_order 0 0 "" initialFilters ""
    [repoA, repoB]).2 rfl

end Vision
